import Mathlib

/-!
Verification of the minject-rs library (Windows DLL injection) against its
natural-language specification.  The Rust sources under `src/` are shallowly
embedded below: pure computations become Lean functions, OS calls become
explicit parameters (their results passed in as `Except`/`Option` values or
recorded as emitted actions), and machine integers become `Nat` (the program
performs no wrapping arithmetic on the quantities modelled here).

We model the 64-bit (`x86_64`) build: pointers and `usize` are 8 bytes wide,
`DWORD` is 4 bytes.
-/

namespace Minject

/-- Pointer size on the modelled architecture (x86_64): 8 bytes. -/
def ptrSize : Nat := 8

/-- Size of a raw kernel handle (`RawHandle = *mut c_void`): one pointer. -/
def rawHandleSize : Nat := ptrSize

/-! ## Remote memory arena (src/inject.rs, `RemoteMemory`)

The Rust struct is `{ process: &Handle, memory: *mut u8, offset: usize }`.
We model the process as a numeric id and the base pointer as a numeric
address (`0` plays the role of the null pointer). -/

/-- Model of `RemoteMemory`: owning process id, base address of the region in
the target, and the bump-allocation offset.  The source struct has no
ownership flag distinguishing `new` regions from `from_raw` views. -/
structure RemoteMemory where
  process : Nat
  memory : Nat
  offset : Nat
deriving DecidableEq, Repr

/-- `RemoteMemory::from_raw(process, memory)`: adopt an existing foreign
pointer; offset starts at 0.  (src/inject.rs lines 50-56.) -/
def RemoteMemory.from_raw (process memory : Nat) : RemoteMemory :=
  { process := process, memory := memory, offset := 0 }

/-- An OS-level action emitted by the embedded code. -/
inductive OsAction where
  /-- `VirtualFreeEx(process, addr, 0, MEM_RELEASE)` -/
  | virtualFreeEx (process addr : Nat)
  /-- `TerminateProcess(process, 1)` -/
  | terminateProcess (process : Nat)
deriving DecidableEq, Repr

/-- `impl Drop for RemoteMemory` (src/inject.rs lines 124-128): the drop glue
unconditionally calls `VirtualFreeEx(self.process, self.memory, 0, MEM_RELEASE)`;
there is no branch on how the wrapper was constructed. -/
def RemoteMemory.dropActions (m : RemoteMemory) : List OsAction :=
  [.virtualFreeEx m.process m.memory]

/-- The alignment computation of `write_inner` (src/inject.rs line 59):
`offset + (align - (offset % align)) % align`. -/
def alignUp (offset align : Nat) : Nat :=
  offset + (align - offset % align) % align

/-- Result of a successful `write_inner`: the returned remote pointer, the new
bump offset, and whether a cross-process `WriteProcessMemory` call was made. -/
structure WriteResult where
  remotePtr : Nat
  newOffset : Nat
  wroteMemory : Bool
deriving DecidableEq, Repr

/-- `RemoteMemory::write_inner` (src/inject.rs lines 58-78), with the success
of the `WriteProcessMemory` OS call passed in as `writeOk`.  The remote
pointer is `memory + aligned offset`; a zero-sized write returns before
calling the OS and leaves the offset unchanged; otherwise on success the
offset advances to `aligned + size`. -/
def write_inner (memory offset size align : Nat) (writeOk : Bool) :
    Except Unit WriteResult :=
  let aligned := alignUp offset align
  let remotePtr := memory + aligned
  if size = 0 then
    .ok { remotePtr := remotePtr, newOffset := offset, wroteMemory := false }
  else if writeOk then
    .ok { remotePtr := remotePtr, newOffset := aligned + size, wroteMemory := true }
  else
    .error ()

/-- `RemoteMemory::write_slice` (src/inject.rs lines 84-86): the written size
is `mem::size_of_val(value) = len * size_of::<T>()` and the alignment is
`mem::align_of_val(value) = align_of::<T>()`. -/
def write_slice (memory offset len elemSize elemAlign : Nat) (writeOk : Bool) :
    Except Unit WriteResult :=
  write_inner memory offset (len * elemSize) elemAlign writeOk

/-! ## Parameter block and the injector's exit-code dispatch
(src/inject.rs, `ThreadParam` and `Injector::inject`) -/

/-- Model of the packed `ThreadParam` struct; pointer fields are numeric
addresses in the target (0 = null). -/
structure ThreadParam where
  module_path : Nat
  init_name : Nat
  user_data : Nat
  user_len : Nat
  last_error : Nat
deriving DecidableEq, Repr

/-- Exit-code constants (src/inject.rs lines 319-322). -/
def SUCCESS : Nat := 0

/-- `ERROR_LOAD_FAILED` thread exit code. -/
def ERROR_LOAD_FAILED : Nat := 1

/-- `ERROR_INIT_NOT_FOUND` thread exit code. -/
def ERROR_INIT_NOT_FOUND : Nat := 2

/-- `ERROR_INIT_FAILED` thread exit code. -/
def ERROR_INIT_FAILED : Nat := 3

/-- Model of `InitError` (src/init.rs lines 14-22). -/
inductive InitError where
  | panic (message : String)
  | argument (name message : String)
  | tooManyArguments
deriving DecidableEq, Repr

/-- Model of `inject::Error` (src/inject.rs lines 325-341).  `LoadFailed` and
`InitNotFound` carry `io::Error::from_raw_os_error(last_error)`, modelled as
the raw OS error number; the payloads of `Deserialize` and `Io` are abstracted
away. -/
inductive InjectError where
  | bitness
  | loadFailed (osError : Nat)
  | initNotFound (osError : Nat)
  | initError (error : Option InitError)
  | deserialize
  | unexpectedExitCode (code : Nat)
  | io
deriving DecidableEq, Repr

/-- The exit-code dispatch at the end of `Injector::inject` (src/inject.rs
lines 445-463).  `readVec addr len` stands for
`RemoteMemory::from_raw(..).read_vec(addr, len)` (reading `len` bytes back
from address `addr` in the target) and `deser` for
`bincode::serde::deserialize` on those bytes; both are passed in as
environment functions.  `try!` on a failed read yields `Error::Io`, `try!` on
a failed deserialize yields `Error::Deserialize`. -/
def decodeExit (exitCode : Nat) (param : ThreadParam)
    (readVec : Nat → Nat → Except Unit (List Nat))
    (deser : List Nat → Except Unit InitError) : Except InjectError Unit :=
  if exitCode = SUCCESS then
    .ok ()
  else if exitCode = ERROR_LOAD_FAILED then
    .error (.loadFailed param.last_error)
  else if exitCode = ERROR_INIT_NOT_FOUND then
    .error (.initNotFound param.last_error)
  else if exitCode = ERROR_INIT_FAILED then
    if param.user_data = 0 || param.user_len = 0 then
      .error (.initError none)
    else
      match readVec param.user_data param.user_len with
      | .error _ => .error .io
      | .ok bytes =>
        match deser bytes with
        | .error _ => .error .deserialize
        | .ok e => .error (.initError (some e))
  else
    .error (.unexpectedExitCode exitCode)

/-! ## `Module::copy_to_process` (src/inject.rs lines 236-292)

On x86_64, `ThreadParam` is `repr(C)` with fields
`LPCWSTR, LPCSTR, *const u8, usize, DWORD` = 8+8+8+8+4 bytes padded to
alignment 8, so `size_of::<ThreadParam>() = 40` and
`align_of::<ThreadParam>() = 8`. -/

/-- `mem::size_of::<ThreadParam>()` on x86_64. -/
def threadParamSize : Nat := 40

/-- `mem::align_of::<ThreadParam>()` on x86_64. -/
def threadParamAlign : Nat := 8

/-- The offset effect of one `write_inner` call that succeeds: returns the
aligned start offset of the write and the new bump offset (unchanged when the
size is zero). -/
def bump (offset size align : Nat) : Nat × Nat :=
  let aligned := alignUp offset align
  (aligned, if size = 0 then offset else aligned + size)

/-- The data recorded about one `copy_to_process` run: the requested region
size, the (start offset, byte size) of each write issued against the region in
order, the parameter block value written, its offset, and the final bump
offset. -/
structure CopyModel where
  totalSize : Nat
  writes : List (Nat × Nat)
  param : ThreadParam
  paramOffset : Nat
  finalOffset : Nat
deriving DecidableEq, Repr

/-- `Module::copy_to_process` (src/inject.rs lines 236-292), with every
`WriteProcessMemory` call assumed to succeed (the claim under study is about
the offsets of the writes that are issued).  Inputs: `base` is the address
returned by `VirtualAllocEx`; `pathLen` is the number of `u16` code units of
the module path including its terminating zero; `init = some (initLen,
argsLen)` gives the byte length of the zero-terminated initializer name and of
the serialized argument stream.  The requested size is
`size_of_val(path) + size_of::<ThreadParam>()` plus, when an initializer is
present, `size_of_val(init) + size_of_val(args)` — no allowance for alignment
padding.  Writes: the path (`u16` slice, align 2), then the init name and the
args (`u8` slices, align 1) when present, then the `ThreadParam` (align 8).
Pointer fields of the parameter block are the remote addresses of the
corresponding writes; `user_len` is the serialized-args byte count. -/
def copy_to_process (base pathLen : Nat) (init : Option (Nat × Nat)) : CopyModel :=
  let totalSize := 2 * pathLen + threadParamSize +
    (match init with
     | none => 0
     | some (initLen, argsLen) => initLen + argsLen)
  let (pathStart, o1) := bump 0 (2 * pathLen) 2
  match init with
  | none =>
    let (paramStart, o2) := bump o1 threadParamSize threadParamAlign
    { totalSize := totalSize
      writes := [(pathStart, 2 * pathLen), (paramStart, threadParamSize)]
      param := { module_path := base + pathStart, init_name := 0,
                 user_data := 0, user_len := 0, last_error := 0 }
      paramOffset := paramStart
      finalOffset := o2 }
  | some (initLen, argsLen) =>
    let (initStart, o2) := bump o1 initLen 1
    let (argsStart, o3) := bump o2 argsLen 1
    let (paramStart, o4) := bump o3 threadParamSize threadParamAlign
    { totalSize := totalSize
      writes := [(pathStart, 2 * pathLen), (initStart, initLen),
                 (argsStart, argsLen), (paramStart, threadParamSize)]
      param := { module_path := base + pathStart, init_name := base + initStart,
                 user_data := base + argsStart, user_len := argsLen, last_error := 0 }
      paramOffset := paramStart
      finalOffset := o4 }

/-! ## Initializer trampoline (src/init.rs) -/

/-- `w::PAGE_READWRITE`. -/
def PAGE_READWRITE : Nat := 4

/-- The observable outcome of `__set_result`: the returned status, the values
stored through the two out-parameters (`0` = null), and the address/contents
of the freshly `VirtualAlloc`ed buffer when one was populated. -/
structure SetResultOut where
  ret : Nat
  outData : Nat
  outSize : Nat
  written : Option (Nat × List Nat)
deriving DecidableEq, Repr

/-- `init::__set_result` (src/init.rs lines 41-66).  `serialize` stands for
`bincode::serde::serialize(&error, SizeLimit::Infinite)` (`none` = `Err`);
`valloc size protect` stands for `VirtualAlloc(null, size,
MEM_COMMIT|MEM_RESERVE, protect)` (`none` = null).  The out-parameters are
first set to null/0; on `Ok` the function returns 1; on `Err` it serializes,
allocates `buffer.len()` bytes read/write, copies the bytes in and publishes
pointer and length only when the allocation returned non-null, and returns 0
in every case. -/
def __set_result (result : Except InitError Unit)
    (serialize : InitError → Option (List Nat))
    (valloc : Nat → Nat → Option Nat) : SetResultOut :=
  match result with
  | .ok () => { ret := 1, outData := 0, outSize := 0, written := none }
  | .error e =>
    match serialize e with
    | none => { ret := 0, outData := 0, outSize := 0, written := none }
    | some buffer =>
      let size := buffer.length
      match valloc size PAGE_READWRITE with
      | none => { ret := 0, outData := 0, outSize := 0, written := none }
      | some data =>
        { ret := 0, outData := data, outSize := size, written := some (data, buffer) }

/-- The unwind payload caught by `std::panic::recover` in the generated
trampoline: a `&'static str`, a `String`, or any other boxed value. -/
inductive PanicPayload where
  | staticStr (s : String)
  | string (s : String)
  | other
deriving DecidableEq, Repr

/-- The message extraction of the trampoline's `unwrap_or_else` closure
(src/init.rs lines 121-128): downcast to `&'static str`, then to `String`,
else the literal `"Box<Any>"`. -/
def panicMessage : PanicPayload → String
  | .staticStr s => s
  | .string s => s
  | .other => "Box<Any>"

/-- `panic::recover(..).unwrap_or_else(..)` (src/init.rs lines 119-131): an
unwind with payload `p` becomes `Err(InitError::Panic(panicMessage p))`; a
normal return passes its `Result` through. -/
def recoverResult (body : Except PanicPayload (Except InitError Unit)) :
    Except InitError Unit :=
  match body with
  | .ok r => r
  | .error payload => .error (.panic (panicMessage payload))

/-- The generated trampoline (src/init.rs lines 96-134).  `dataIsNull` /
`sizeIsNull` model the null checks on the two out-parameter pointers; `body`
models `__deserialize_and_invoke` run under `panic::recover` (`Except.error`
is an unwind carrying its payload).  If either pointer is null the trampoline
returns 0 without touching memory (second component `none`); otherwise it
delegates to `__set_result`. -/
def trampoline (dataIsNull sizeIsNull : Bool)
    (body : Except PanicPayload (Except InitError Unit))
    (serialize : InitError → Option (List Nat))
    (valloc : Nat → Nat → Option Nat) : Nat × Option SetResultOut :=
  if dataIsNull || sizeIsNull then
    (0, none)
  else
    let out := __set_result (recoverResult body) serialize valloc
    (out.ret, some out)

/-! ## Suspended-spawn pipeline (src/process.rs) -/

/-- The injection loop of `spawn_inner` (src/process.rs lines 481-486):
inject each module in order, stopping at the first failure. -/
def injectAll {M E : Type} (injectOne : M → Except E Unit) :
    List M → Except E Unit
  | [] => .ok ()
  | m :: rest =>
    match injectOne m with
    | .error e => .error e
    | .ok () => injectAll injectOne rest

/-- The observable outcome of `spawn_inner` after `CreateProcessW` succeeded:
the returned result, whether the `ProcessGuard` drop ran `TerminateProcess`,
whether `ResumeThread` succeeded, and whether the guard was released (so the
returned `Child` owns a process that is not terminated on drop). -/
structure SpawnPost (E : Type) where
  result : Except E Unit
  terminated : Bool
  resumed : Bool
  guardReleased : Bool

/-- The tail of `Command::spawn_inner` after the suspended child was created
(src/process.rs lines 478-501).  The process handle is wrapped in a
`ProcessGuard` whose drop calls `TerminateProcess` (lines 23-39); every
`try!`-propagated error drops the guard.  `injectorNew` models
`Injector::new(&process)`, `injectOne` models `injector.inject(module)`, and
`resume` models the `ResumeThread` call.  Only after injection of every module
succeeded and the thread was resumed is the guard released via
`process.release()` and the `Child` returned. -/
def spawn_post {M E : Type} (modules : List M) (injectorNew : Except E Unit)
    (injectOne : M → Except E Unit) (resume : Except E Unit) : SpawnPost E :=
  let injPhase : Except E Unit :=
    if modules.isEmpty then .ok ()
    else
      match injectorNew with
      | .error e => .error e
      | .ok () => injectAll injectOne modules
  match injPhase with
  | .error e =>
    { result := .error e, terminated := true, resumed := false, guardReleased := false }
  | .ok () =>
    match resume with
    | .error e =>
      { result := .error e, terminated := true, resumed := false, guardReleased := false }
    | .ok () =>
      { result := .ok (), terminated := false, resumed := true, guardReleased := true }

/-! ## `Child::kill` and `Child::wait` (src/process.rs lines 69-110) -/

/-- The `Child` state relevant to `kill`/`wait`: the cached exit status and
whether the stdin endpoint is still held. -/
structure ChildState where
  status : Option Nat
  stdinOpen : Bool
deriving DecidableEq, Repr

/-- Errors surfaced by `Child::kill`. -/
inductive KillError where
  /-- `io::Error::new(ErrorKind::InvalidInput, ...)` -/
  | invalidInput
  /-- `io::Error::last_os_error()` after a failed `TerminateProcess` -/
  | osError
deriving DecidableEq, Repr

/-- `Child::kill` (src/process.rs lines 69-79): if a status is cached, return
an `InvalidInput` error; otherwise call `TerminateProcess` (its success passed
in as `terminateOk`).  Returns the result, the unchanged-or-not child state,
and whether `TerminateProcess` was called. -/
def Child_kill (c : ChildState) (terminateOk : Bool) :
    Except KillError Unit × ChildState × Bool :=
  match c.status with
  | some _ => (.error .invalidInput, c, false)
  | none =>
    if terminateOk then (.ok (), c, true)
    else (.error .osError, c, true)

/-- `Child::wait` (src/process.rs lines 94-110): return the cached status if
present; otherwise drop stdin, block on the process handle (`waitOk`), query
the exit code (`getCodeOk`, value `exitCode`), cache and return it. -/
def Child_wait (c : ChildState) (waitOk getCodeOk : Bool) (exitCode : Nat) :
    Except Unit Nat × ChildState :=
  match c.status with
  | some s => (.ok s, c)
  | none =>
    let c := { c with stdinOpen := false }
    if !waitOk then (.error (), c)
    else if !getCodeOk then (.error (), c)
    else (.ok exitCode, { c with status := some exitCode })

/-! ## Proc-thread attribute handle list (src/process.rs lines 267-277, 464-466) -/

/-- `mem::size_of::<&mut [RawHandle]>()`: a slice reference is a fat pointer
(data pointer + length), two pointer-sized words. -/
def mutSliceRefSize : Nat := 2 * ptrSize

/-- The `PROC_THREAD_ATTRIBUTE_HANDLE_LIST` attribute as installed: the buffer
the attribute points at and the declared byte size `cbSize`. -/
structure HandleListAttribute where
  buffer : List Nat
  cbSize : Nat
deriving DecidableEq, Repr

/-- `ProcThreadAtributeList::handles` (src/process.rs lines 267-277): installs
`handles.as_mut_ptr()` with declared size `mem::size_of_val(&handles)`.  The
parameter `handles` has type `&mut [RawHandle]`, so `&handles` has type
`&&mut [RawHandle]` and `size_of_val(&handles)` measures the fat pointer
itself — `mutSliceRefSize` bytes — independent of the number of handles. -/
def handles_attribute (handles : List Nat) : HandleListAttribute :=
  { buffer := handles, cbSize := mutSliceRefSize }

/-- The attribute installed by `spawn_inner` (src/process.rs line 465):
`attributes.handles(&mut [stdin, stdout, stderr])`. -/
def spawn_handles_attribute (stdin stdout stderr : Nat) : HandleListAttribute :=
  handles_attribute [stdin, stdout, stderr]

/-- How the kernel consumes a handle-list attribute: the whitelist is the
first `cbSize / sizeof(HANDLE)` entries of the buffer. -/
def whitelistedHandles (a : HandleListAttribute) : List Nat :=
  a.buffer.take (a.cbSize / rawHandleSize)

/-! ## `make_command_line` (src/process.rs lines 685-718)

Characters are UTF-16 code units modelled as `Nat`. -/

/-- The `\` code unit. -/
def bslash : Nat := 92

/-- The `"` code unit. -/
def dquote : Nat := 34

/-- The character loop of `append_arg` (src/process.rs lines 689-707),
carrying the running count `bs` of immediately preceding backslashes (each
already emitted once): a backslash is emitted and counted; a double quote
first gets `bs + 1` extra backslashes; any other character resets the count;
after the last character `bs` extra backslashes are emitted. -/
def appendArgLoop : List Nat → Nat → List Nat
  | [], bs => List.replicate bs bslash
  | x :: rest, bs =>
    if x = bslash then
      x :: appendArgLoop rest (bs + 1)
    else if x = dquote then
      List.replicate (bs + 1) bslash ++ x :: appendArgLoop rest 0
    else
      x :: appendArgLoop rest 0

/-- `append_arg` (src/process.rs lines 686-708): the token surrounded by
double quotes with the loop above in between. -/
def append_arg (arg : List Nat) : List Nat :=
  dquote :: appendArgLoop arg 0 ++ [dquote]

/-- `make_command_line` (src/process.rs lines 685-718): the quoted program,
then each argument preceded by a single space, then the terminating NUL. -/
def make_command_line (prog : List Nat) (args : List (List Nat)) : List Nat :=
  append_arg prog ++ (args.map (fun a => 32 :: append_arg a)).flatten ++ [0]

/-- Stated from the claim's wording, for comparison with `appendArgLoop`:
given the characters following a backslash, decide whether that backslash
belongs to a run that immediately precedes a double quote or the end of the
token (and hence must be doubled). -/
def bslashDoubled : List Nat → Bool
  | [] => true
  | x :: rest => if x = bslash then bslashDoubled rest else x = dquote

/-- Stated from the claim's wording: emit every character verbatim, except
that a double quote is preceded by one extra backslash and a backslash is
doubled exactly when its run immediately precedes a double quote or the
closing quote. -/
def specEscape : List Nat → List Nat
  | [] => []
  | x :: rest =>
    if x = bslash then
      (if bslashDoubled rest then [bslash, bslash] else [bslash]) ++ specEscape rest
    else if x = dquote then
      bslash :: x :: specEscape rest
    else
      x :: specEscape rest

/-- Stated from the claim's wording: a token is wrapped in double quotes
around its escaped characters. -/
def specQuoteToken (tok : List Nat) : List Nat :=
  dquote :: specEscape tok ++ [dquote]

/-- Stated from the claim's wording: all tokens, program first, each quoted,
separated by single spaces, with the command line's terminating NUL. -/
def specCommandLine (prog : List Nat) (args : List (List Nat)) : List Nat :=
  specQuoteToken prog ++ (args.map (fun a => 32 :: specQuoteToken a)).flatten ++ [0]

/-! ## Theorems -/

/-- C1: once the remote thread has exited, `Injector::inject`'s result is
determined by the thread's exit code: 0 yields `Ok(())`; 1 yields `LoadFailed`
with the OS error from the parameter block's `last_error`; 2 yields
`InitNotFound` with that OS error; 3 with a null `user_data` pointer or zero
length yields `InitError(None)`; 3 with non-null pointer and non-zero length
yields `InitError(Some(e))` with `e` deserialized from the `user_data_len`
bytes read back from `user_data_ptr` (a decode failure yields `Deserialize`);
any other exit code yields `UnexpectedExitCode(code)`. -/
theorem C1_inject_exit_code_dispatch (param : ThreadParam)
    (readVec : Nat → Nat → Except Unit (List Nat))
    (deser : List Nat → Except Unit InitError) :
    decodeExit SUCCESS param readVec deser = .ok () ∧
    decodeExit ERROR_LOAD_FAILED param readVec deser
      = .error (.loadFailed param.last_error) ∧
    decodeExit ERROR_INIT_NOT_FOUND param readVec deser
      = .error (.initNotFound param.last_error) ∧
    (param.user_data = 0 ∨ param.user_len = 0 →
      decodeExit ERROR_INIT_FAILED param readVec deser = .error (.initError none)) ∧
    (∀ bytes e, param.user_data ≠ 0 → param.user_len ≠ 0 →
      readVec param.user_data param.user_len = .ok bytes → deser bytes = .ok e →
      decodeExit ERROR_INIT_FAILED param readVec deser
        = .error (.initError (some e))) ∧
    (∀ bytes, param.user_data ≠ 0 → param.user_len ≠ 0 →
      readVec param.user_data param.user_len = .ok bytes → deser bytes = .error () →
      decodeExit ERROR_INIT_FAILED param readVec deser = .error .deserialize) ∧
    (∀ code, code ≠ SUCCESS → code ≠ ERROR_LOAD_FAILED →
      code ≠ ERROR_INIT_NOT_FOUND → code ≠ ERROR_INIT_FAILED →
      decodeExit code param readVec deser = .error (.unexpectedExitCode code)) := by
  refine ⟨rfl, rfl, rfl, ?_, ?_, ?_, ?_⟩
  · intro h
    rcases h with h | h <;>
      simp [decodeExit, SUCCESS, ERROR_LOAD_FAILED, ERROR_INIT_NOT_FOUND,
            ERROR_INIT_FAILED, h]
  · intro bytes e hd hl hr he
    simp [decodeExit, SUCCESS, ERROR_LOAD_FAILED, ERROR_INIT_NOT_FOUND,
          ERROR_INIT_FAILED, hd, hl, hr, he]
  · intro bytes hd hl hr he
    simp [decodeExit, SUCCESS, ERROR_LOAD_FAILED, ERROR_INIT_NOT_FOUND,
          ERROR_INIT_FAILED, hd, hl, hr, he]
  · intro code h0 h1 h2 h3
    simp only [SUCCESS, ERROR_LOAD_FAILED, ERROR_INIT_NOT_FOUND,
               ERROR_INIT_FAILED] at h0 h1 h2 h3
    simp [decodeExit, SUCCESS, ERROR_LOAD_FAILED, ERROR_INIT_NOT_FOUND,
          ERROR_INIT_FAILED, h0, h1, h2, h3]

/-- Witness for C1 at concrete inputs: a parameter block with
`user_data = 5`, `user_len = 3`, a read that returns `[9]` and a deserializer
that returns `TooManyArguments`, plus the out-of-range exit code 7. -/
theorem C1_inject_exit_code_dispatch_witness :
    decodeExit ERROR_INIT_FAILED ⟨0, 0, 5, 3, 7⟩ (fun _ _ => .ok [9])
      (fun _ => .ok .tooManyArguments) = .error (.initError (some .tooManyArguments)) ∧
    decodeExit 7 ⟨0, 0, 5, 3, 7⟩ (fun _ _ => .ok [9])
      (fun _ => .ok .tooManyArguments) = .error (.unexpectedExitCode 7) := by
  have h := C1_inject_exit_code_dispatch ⟨0, 0, 5, 3, 7⟩ (fun _ _ => .ok [9])
    (fun _ => .ok .tooManyArguments)
  exact ⟨h.2.2.2.2.1 [9] .tooManyArguments (by decide) (by decide) rfl rfl,
         h.2.2.2.2.2.2 7 (by decide) (by decide) (by decide) (by decide)⟩

/-- C2: for every trampoline invocation with non-null out-parameter pointers,
the success path stores null/0 through the out-parameters and returns 1; every
error path returns 0, and the out-parameters are either left null/0 (in
particular whenever serialization or the `VirtualAlloc` fails) or point at a
freshly allocated read/write buffer of exactly the serialized `InitError`
bytes, with the size set to that buffer's length. -/
theorem C2_trampoline_out_params (body : Except PanicPayload (Except InitError Unit))
    (serialize : InitError → Option (List Nat)) (valloc : Nat → Nat → Option Nat) :
    (recoverResult body = .ok () →
      trampoline false false body serialize valloc
        = (1, some { ret := 1, outData := 0, outSize := 0, written := none })) ∧
    (∀ e, recoverResult body = .error e → serialize e = none →
      trampoline false false body serialize valloc
        = (0, some { ret := 0, outData := 0, outSize := 0, written := none })) ∧
    (∀ e buf, recoverResult body = .error e → serialize e = some buf →
      valloc buf.length PAGE_READWRITE = none →
      trampoline false false body serialize valloc
        = (0, some { ret := 0, outData := 0, outSize := 0, written := none })) ∧
    (∀ e buf addr, recoverResult body = .error e → serialize e = some buf →
      valloc buf.length PAGE_READWRITE = some addr →
      trampoline false false body serialize valloc
        = (0, some { ret := 0, outData := addr, outSize := buf.length,
                     written := some (addr, buf) })) := by
  refine ⟨?_, ?_, ?_, ?_⟩
  · intro h
    simp [trampoline, __set_result, h]
  · intro e h hs
    simp [trampoline, __set_result, h, hs]
  · intro e buf h hs ha
    simp [trampoline, __set_result, h, hs, ha]
  · intro e buf addr h hs ha
    simp [trampoline, __set_result, h, hs, ha]

/-- Witness for C2 at concrete inputs: a body that returns
`Err(TooManyArguments)`, a serializer producing two bytes, and an allocation
at address 4096. -/
theorem C2_trampoline_out_params_witness :
    trampoline false false (.ok (.error .tooManyArguments))
      (fun _ => some [5, 5]) (fun _ _ => some 4096)
      = (0, some { ret := 0, outData := 4096, outSize := 2,
                   written := some (4096, [5, 5]) }) := by
  exact (C2_trampoline_out_params (.ok (.error .tooManyArguments))
    (fun _ => some [5, 5]) (fun _ _ => some 4096)).2.2.2
    .tooManyArguments [5, 5] 4096 rfl rfl rfl

/-- C3: for a spawn with a non-empty module list, any failure of the
`Injector` construction, of any module's injection, or of `ResumeThread`
after the child was created suspended makes the process guard terminate the
child; the child is resumed and the guard released (so the returned `Child`
does not terminate the process on drop) only when the injector was built,
every module injected, and the thread resumed successfully. -/
theorem C3_spawn_failure_terminates_child {M E : Type} (modules : List M)
    (hne : modules ≠ []) (injectorNew : Except E Unit)
    (injectOne : M → Except E Unit) (resume : Except E Unit) :
    ((∃ e, (spawn_post modules injectorNew injectOne resume).result = .error e) →
      (spawn_post modules injectorNew injectOne resume).terminated = true ∧
      (spawn_post modules injectorNew injectOne resume).guardReleased = false ∧
      (spawn_post modules injectorNew injectOne resume).resumed = false) ∧
    ((spawn_post modules injectorNew injectOne resume).guardReleased = true →
      (spawn_post modules injectorNew injectOne resume).resumed = true ∧
      (spawn_post modules injectorNew injectOne resume).terminated = false ∧
      injectorNew = .ok () ∧ injectAll injectOne modules = .ok () ∧
      resume = .ok ()) := by
  have hemp : modules.isEmpty = false := by
    cases modules with
    | nil => exact absurd rfl hne
    | cons m rest => rfl
  rcases injectorNew with e | u
  · constructor
    · intro _
      simp [spawn_post, hemp]
    · intro h
      simp [spawn_post, hemp] at h
  · obtain ⟨⟩ := u
    rcases hall : injectAll injectOne modules with e2 | u2
    · constructor
      · intro _
        simp [spawn_post, hemp, hall]
      · intro h
        simp [spawn_post, hemp, hall] at h
    · obtain ⟨⟩ := u2
      rcases resume with e3 | u3
      · constructor
        · intro _
          simp [spawn_post, hemp, hall]
        · intro h
          simp [spawn_post, hemp, hall] at h
      · obtain ⟨⟩ := u3
        constructor
        · intro h
          rcases h with ⟨e, he⟩
          simp [spawn_post, hemp, hall] at he
        · intro _
          simp [spawn_post, hemp, hall]

/-- Witness for C3 at concrete inputs: one module, everything succeeding, and
separately a failing injection. -/
theorem C3_spawn_failure_terminates_child_witness :
    ((spawn_post [()] (Except.ok ())
        (fun _ => (Except.ok () : Except Unit Unit)) (Except.ok ())).resumed = true ∧
      (spawn_post [()] (Except.ok ())
        (fun _ => (Except.ok () : Except Unit Unit)) (Except.ok ())).terminated = false) ∧
    ((spawn_post [()] (Except.ok ())
        (fun _ => (Except.error () : Except Unit Unit)) (Except.ok ())).terminated = true ∧
      (spawn_post [()] (Except.ok ())
        (fun _ => (Except.error () : Except Unit Unit)) (Except.ok ())).guardReleased = false) := by
  have hok := (C3_spawn_failure_terminates_child [()] (by simp) (Except.ok ())
    (fun _ => (Except.ok () : Except Unit Unit)) (Except.ok ())).2 rfl
  have herr := (C3_spawn_failure_terminates_child [()] (by simp) (Except.ok ())
    (fun _ => (Except.error () : Except Unit Unit)) (Except.ok ())).1 ⟨(), rfl⟩
  exact ⟨⟨hok.1, hok.2.1⟩, ⟨herr.1, herr.2.1⟩⟩

/-- C4 fails on the code: `copy_to_process` sizes the region as
`wide_path_bytes + parameter_block + init_name_bytes + serialized_args_bytes`
with no allowance for the alignment padding inserted before the parameter
block, so the parameter-block write can run past the reserved size.  At the
failing input — a module path of 9 UTF-16 units (e.g. `C:\x.dll` plus NUL)
and no initializer — the region is 18 + 40 = 58 bytes, but the parameter
block is written at the 8-aligned offset 24 and ends at 64. -/
theorem C4_param_write_exceeds_region :
    (copy_to_process 0 9 none).totalSize = 58 ∧
    (copy_to_process 0 9 none).paramOffset = 24 ∧
    (copy_to_process 0 9 none).finalOffset = 64 ∧
    (copy_to_process 0 9 none).writes =
      [(0, 18), (24, threadParamSize)] ∧
    ¬ (copy_to_process 0 9 none).finalOffset ≤ (copy_to_process 0 9 none).totalSize := by
  decide

/-- C5 as stated is false on the code: the fallback literal for a non-string
panic payload is `"Box<Any>"` (src/init.rs line 126), not
`"<non-string panic>"`. -/
theorem C5_non_string_literal_counterexample :
    recoverResult (.error .other) ≠ .error (.panic "<non-string panic>") := by
  intro h
  exact absurd (Except.error.inj h) (by decide)

/-- C5 amended: every unwind caught inside a generated trampoline produces
`Panic(message)`, where `message` is the payload's string when the payload is
a `&'static str` or a `String`, and otherwise the literal `"Box<Any>"`. -/
theorem C5_unwind_yields_panic_message :
    (∀ payload, recoverResult (.error payload) = .error (.panic (panicMessage payload))) ∧
    (∀ s, panicMessage (.staticStr s) = s) ∧
    (∀ s, panicMessage (.string s) = s) ∧
    panicMessage .other = "Box<Any>" := by
  exact ⟨fun _ => rfl, fun _ => rfl, fun _ => rfl, rfl⟩

theorem cons_replicate_succ (n a : Nat) :
    a :: List.replicate (n + 1) a = List.replicate n a ++ [a, a] := by
  rw [← List.replicate_succ]
  rw [show [a, a] = List.replicate 2 a from rfl, ← List.replicate_add]

/-- The stateful backslash counter of `append_arg` agrees with the run-based
description: with `bs` pending backslashes already emitted once, the loop
emits `bs` extra copies exactly when the remaining characters put those
backslashes in a run that immediately precedes a double quote or the end of
the token. -/
theorem appendArgLoop_eq_specEscape (l : List Nat) (bs : Nat) :
    appendArgLoop l bs =
      (if bslashDoubled l then List.replicate bs bslash else []) ++ specEscape l := by
  induction l generalizing bs with
  | nil => simp [appendArgLoop, bslashDoubled, specEscape]
  | cons x rest ih =>
    by_cases hb : x = bslash
    · subst hb
      cases hd : bslashDoubled rest with
      | true =>
        simp only [appendArgLoop, if_pos rfl, ih, hd, if_true, specEscape,
                   bslashDoubled, List.nil_append]
        rw [← List.cons_append, cons_replicate_succ, List.append_assoc]
      | false =>
        simp [appendArgLoop, ih, hd, specEscape, bslashDoubled]
    · by_cases hq : x = dquote
      · subst hq
        have hne : dquote ≠ bslash := by decide
        simp only [appendArgLoop, if_neg hne, if_pos rfl, ih, specEscape,
                   bslashDoubled, List.replicate_zero, List.nil_append,
                   List.replicate_succ']
        cases hd : bslashDoubled rest <;>
          simp [List.append_assoc, List.cons_append]
      · simp [appendArgLoop, hb, hq, ih, specEscape, bslashDoubled]

theorem append_arg_eq_specQuoteToken (tok : List Nat) :
    append_arg tok = specQuoteToken tok := by
  rw [append_arg, specQuoteToken, appendArgLoop_eq_specEscape]
  cases h : bslashDoubled tok <;> simp [h]

/-- C6: `make_command_line` wraps every token (the program name included) in
double quotes, precedes each literal double quote with one extra backslash,
doubles exactly the runs of backslashes that immediately precede a double
quote or the closing quote, emits everything else verbatim, and joins tokens
with single spaces; on `C:\a b\x.exe` with argument `c:\path\` it produces
`"C:\a b\x.exe" "c:\path\\"` (plus the terminating NUL). -/
theorem C6_command_line_quoting (prog : List Nat) (args : List (List Nat)) :
    make_command_line prog args = specCommandLine prog args ∧
    make_command_line [67, 58, 92, 97, 32, 98, 92, 120, 46, 101, 120, 101]
        [[99, 58, 92, 112, 97, 116, 104, 92]] =
      [34, 67, 58, 92, 97, 32, 98, 92, 120, 46, 101, 120, 101, 34, 32,
       34, 99, 58, 92, 112, 97, 116, 104, 92, 92, 34, 0] := by
  constructor
  · simp [make_command_line, specCommandLine, append_arg_eq_specQuoteToken]
  · decide

/-- C7 as stated is false on the code: `RemoteMemory`'s `Drop` impl calls
`VirtualFreeEx` unconditionally — the struct has no ownership flag — so
dropping a view created with `from_raw` over a foreign pointer does release
that memory in the target process.  Concretely, dropping
`from_raw(process 7, address 4096)` emits the release of address 4096. -/
theorem C7_from_raw_drop_frees_counterexample :
    RemoteMemory.dropActions (RemoteMemory.from_raw 7 4096)
        = [.virtualFreeEx 7 4096] ∧
    RemoteMemory.dropActions (RemoteMemory.from_raw 7 4096) ≠ [] := by
  decide

/-- C7 amended: a `RemoteMemory` view created with `from_raw` over an
existing foreign pointer behaves on drop exactly like an owning region: its
drop releases the adopted foreign memory in the target process with
`VirtualFreeEx`. -/
theorem C7_from_raw_drop_releases (process address : Nat) :
    RemoteMemory.dropActions (RemoteMemory.from_raw process address)
      = [.virtualFreeEx process address] := rfl

/-- C8 fails on the code: `ProcThreadAtributeList::handles` declares the
attribute's byte size as `mem::size_of_val(&handles)`, which is the size of
the `&mut [RawHandle]` fat pointer (16 bytes on x86_64), not
`3 * size_of::<RawHandle>() = 24`.  The buffer does hold the three stdio
handles, but only the first `16 / 8 = 2` entries are covered by the declared
size, so the stderr handle is not in the inheritable whitelist. -/
theorem C8_handle_list_declared_size_wrong :
    (spawn_handles_attribute 11 22 33).buffer = [11, 22, 33] ∧
    (spawn_handles_attribute 11 22 33).cbSize = 16 ∧
    (spawn_handles_attribute 11 22 33).cbSize ≠ 3 * rawHandleSize ∧
    whitelistedHandles (spawn_handles_attribute 11 22 33) = [11, 22] := by
  decide

/-- C9: once `wait` has returned an exit status (cached in the `Child`), a
subsequent `kill` returns an `InvalidInput` error without calling
`TerminateProcess` and without changing the cached status; before the first
successful `wait`, `kill` does call `TerminateProcess` on the child's process
handle. -/
theorem C9_kill_after_wait (c : ChildState) (terminateOk waitOk getCodeOk : Bool)
    (exitCode : Nat) :
    (∀ s, c.status = some s →
      Child_kill c terminateOk = (.error .invalidInput, c, false)) ∧
    (c.status = none → (Child_kill c terminateOk).2.2 = true) ∧
    (∀ s c', Child_wait c waitOk getCodeOk exitCode = (.ok s, c') →
      c'.status = some s ∧
      Child_kill c' terminateOk = (.error .invalidInput, c', false)) := by
  refine ⟨?_, ?_, ?_⟩
  · intro s hs
    simp [Child_kill, hs]
  · intro hn
    cases hterm : terminateOk <;> simp [Child_kill, hn, hterm]
  · intro s c' hw
    cases hst : c.status with
    | some s0 =>
      simp [Child_wait, hst] at hw
      obtain ⟨hs, hc⟩ := hw
      subst hc
      subst hs
      exact ⟨hst, by simp [Child_kill, hst]⟩
    | none =>
      cases hwo : waitOk with
      | false => simp [Child_wait, hst, hwo] at hw
      | true =>
        cases hgc : getCodeOk with
        | false => simp [Child_wait, hst, hwo, hgc] at hw
        | true =>
          simp [Child_wait, hst, hwo, hgc] at hw
          obtain ⟨hs, hc⟩ := hw
          subst hc
          subst hs
          exact ⟨rfl, by simp [Child_kill]⟩

/-- Witness for C9 at concrete inputs: a child with no cached status, a
successful wait caching exit code 5, then the kill refusal, plus the
terminate-call fact before any wait. -/
theorem C9_kill_after_wait_witness :
    ((⟨some 5, false⟩ : ChildState).status = some 5 ∧
      Child_kill ⟨some 5, false⟩ true
        = (.error .invalidInput, ⟨some 5, false⟩, false)) ∧
    (Child_kill ⟨none, true⟩ true).2.2 = true := by
  refine ⟨(C9_kill_after_wait ⟨none, true⟩ true true true 5).2.2 5
      ⟨some 5, false⟩ rfl,
    (C9_kill_after_wait ⟨none, true⟩ true true true 5).2.1 rfl⟩

/-- C10: a zero-sized write (`write` of a zero-sized value or `write_slice`
of an empty slice) always succeeds, returns the current offset rounded up to
the requested alignment as the foreign pointer, performs no
`WriteProcessMemory` call, and leaves the bump offset unchanged.  The
returned offset `alignUp offset align` is indeed the rounding up of the
current offset: a multiple of `align` that is at least `offset` and less than
`offset + align`. -/
theorem C10_zero_sized_write (memory offset align elemSize elemAlign : Nat)
    (writeOk : Bool) (halign : 0 < align) :
    write_inner memory offset 0 align writeOk =
      .ok { remotePtr := memory + alignUp offset align, newOffset := offset,
            wroteMemory := false } ∧
    write_slice memory offset 0 elemSize elemAlign writeOk =
      write_inner memory offset 0 elemAlign writeOk ∧
    offset ≤ alignUp offset align ∧
    alignUp offset align < offset + align ∧
    alignUp offset align % align = 0 := by
  refine ⟨rfl, by simp [write_slice], Nat.le_add_right _ _, ?_, ?_⟩
  · have h : (align - offset % align) % align < align := Nat.mod_lt _ halign
    exact Nat.add_lt_add_left h offset
  · unfold alignUp
    rcases Nat.eq_zero_or_pos (offset % align) with h | h
    · rw [h, Nat.sub_zero, Nat.mod_self, Nat.add_zero]
      exact h
    · have h1 : align - offset % align < align := Nat.sub_lt halign h
      have h2 : offset % align < align := Nat.mod_lt _ halign
      rw [Nat.mod_eq_of_lt h1, Nat.add_mod, Nat.mod_eq_of_lt h1]
      have h3 : offset % align + (align - offset % align) = align := by omega
      rw [h3, Nat.mod_self]

/-- Witness for C10 at concrete inputs: offset 18, alignment 8 — the pointer
is the base plus the rounded-up offset 24 and the offset stays 18. -/
theorem C10_zero_sized_write_witness :
    write_inner 100 18 0 8 false =
      .ok { remotePtr := 100 + alignUp 18 8, newOffset := 18,
            wroteMemory := false } ∧
    write_slice 100 18 0 2 8 false = write_inner 100 18 0 8 false ∧
    18 ≤ alignUp 18 8 ∧ alignUp 18 8 < 18 + 8 ∧ alignUp 18 8 % 8 = 0 := by
  exact C10_zero_sized_write 100 18 8 2 8 false (by decide)

end Minject
